import Mathlib

/-!
Shallow embedding of the procedural galaxy system (`GalaxySystem.ts`) of the
drift-lab-website repository, together with theorems checking the design
notes against the code.

The embedding follows the source file closely:

* `deviceType`, `optimizedParticleCount` — device tier resolution;
* `densityPower`, `finalRadius`, `branchAngle`, `orbitalSpeedOf` — the
  per-particle generation formulas of `createGalaxy`;
* `armCount` — how many generated particle indices land on a given spiral arm;
* `animateParticle`, `animateFrame` — the per-frame update of `animate`;
* `LoopState` with `animateCall`, `handleVisibilityChange`, `fireFrame`,
  `destroyCancel` — the animation-frame scheduling state machine
  (`animationId`, `isPageVisible`, `isDestroyed`) of `animate`,
  `handleVisibility` and `destroy`;
* `RState` with `updateSizeTrigger`, `updateSizeCallback`, `pixelRatioTimer`
  — the debounced resize coordinator of `handleResize` (`updateSizePending`,
  `lastSize`, the `requestAnimationFrame` callback, the 150 ms pixel-ratio
  timer);
* `TeardownState` with `destroyTeardown` — the texture/material disposal loop
  of `destroy`;
* `getCanvasSize` — the size-resolution fallback chain.

JavaScript numbers are modelled as real numbers (ℝ) where the code does real
arithmetic (trigonometry, powers), as rationals (ℚ) for sub-pixel box
dimensions fed to `Math.round`, and as integers where the code only ever
holds integers.
-/

namespace Galaxy

/-- Device tiers, as classified by the `deviceType` getter. -/
inductive DeviceTier
  | mobile
  | tablet
  | desktop
deriving DecidableEq, Repr

/-- `deviceType`: width < 640, or mobile user agent with width < 1024 ⇒ mobile;
width < 1024 ⇒ tablet; otherwise desktop. -/
def deviceType (width : ℕ) (isMobileUA : Bool) : DeviceTier :=
  if width < 640 ∨ (isMobileUA = true ∧ width < 1024) then .mobile
  else if width < 1024 then .tablet
  else .desktop

/-- `PARTICLES_COUNT = 8000`. -/
def PARTICLES_COUNT : ℕ := 8000

/-- `BRANCHES = 4` spiral arms. -/
def BRANCHES : ℕ := 4

/-- `optimizedParticleCount`: 30% of the budget on mobile, 60% on tablet,
100% on desktop (`Math.floor` is ℕ division here). -/
def optimizedParticleCount (d : DeviceTier) : ℕ :=
  match d with
  | .mobile => PARTICLES_COUNT * 3 / 10
  | .tablet => PARTICLES_COUNT * 6 / 10
  | .desktop => PARTICLES_COUNT

noncomputable section

/-- `RADIUS = 20`, the galaxy radius in scene units. -/
def RADIUS : ℝ := 20

/-- `SPIN = 1.5`, spiral tightness. -/
def SPIN : ℝ := 1.5

/-- `RANDOMNESS = 0.4`, jitter amplitude. -/
def RANDOMNESS : ℝ := 0.4

/-- `densityPower`: `device === 'mobile' ? 3 : 2.5` in `createGalaxy`. -/
def densityPower (d : DeviceTier) : ℝ :=
  if d = .mobile then 3 else 2.5

/-- `finalRadius = Math.pow(Math.random(), densityPower) * RADIUS` in
`createGalaxy`; `u` is the uniform sample. -/
def finalRadius (d : DeviceTier) (u : ℝ) : ℝ :=
  u ^ densityPower d * RADIUS

/-- `branchAngle = ((i % BRANCHES) / BRANCHES) * Math.PI * 2` in
`createGalaxy`. -/
def branchAngle (i : ℕ) : ℝ :=
  ((i % BRANCHES : ℕ) : ℝ) / (BRANCHES : ℝ) * Real.pi * 2

/-- `orbitalSpeed = 0.5 / Math.sqrt(finalRadius + 1)` in `createGalaxy`. -/
def orbitalSpeedOf (r : ℝ) : ℝ :=
  0.5 / Real.sqrt (r + 1)

/-- A 3-component vector (`THREE.Vector3` as used by the system). -/
structure Vec3 where
  x : ℝ
  y : ℝ
  z : ℝ

/-- The parts of a `THREE.Sprite` the galaxy system reads or writes:
position, scale, and its material (glyph texture choice, tint, opacity). -/
structure Sprite where
  position : Vec3
  scale : Vec3
  materialMap : Bool
  materialColor : Vec3
  materialOpacity : ℝ

/-- The `ParticleData` record stored in `this.particles`. -/
structure ParticleData where
  sprite : Sprite
  initialAngle : ℝ
  radius : ℝ
  orbitalSpeed : ℝ
  branchAngle : ℝ
  randomOffset : Vec3

/-- The body of the per-particle `forEach` inside `animate`: recompute the
current angle and pin the sprite position; nothing else is touched. -/
def animateParticle (t : ℝ) (p : ParticleData) : ParticleData :=
  let currentAngle := p.initialAngle + p.orbitalSpeed * t
  { p with
      sprite :=
        { p.sprite with
            position :=
              { x := Real.cos currentAngle * p.radius + p.randomOffset.x
                y := p.randomOffset.y
                z := Real.sin currentAngle * p.radius + p.randomOffset.z } } }

/-- Simulation state carried across frames by `animate`: the clock, the
particle list and the group rotation. -/
structure AnimState where
  time : ℝ
  particles : List ParticleData
  groupRotY : ℝ

/-- One activation of `animate` with the page visible and the galaxy present:
advance `time` by 0.005, update every particle, rotate the group. -/
def animateFrame (s : AnimState) : AnimState :=
  let t := s.time + 0.005
  { time := t
    particles := s.particles.map (animateParticle t)
    groupRotY := s.groupRotY + 0.00003 }

end

/-- Number of particle indices `i < N` assigned to spiral arm `a` by
`i % BRANCHES = a` in `createGalaxy`. -/
def armCount (N a : ℕ) : ℕ :=
  ((Finset.range N).filter (fun i => i % BRANCHES = a)).card

/-! ### Animation-frame scheduling (`animate`, `handleVisibility`, `destroy`) -/

/-- State relevant to frame scheduling: the `isDestroyed` flag, the page
visibility flag, whether `galaxyGroup` is non-null, whether `animationId`
is non-null, the number of outstanding animation-frame requests for
`animate` (owned by the host scheduler), and a cumulative render counter. -/
structure LoopState where
  destroyed : Bool
  visible : Bool
  galaxy : Bool
  animId : Bool
  pending : ℕ
  renders : ℕ
deriving DecidableEq, Repr

/-- A call of `animate`: bail out if destroyed; if the page is visible request
the next frame (and render when the galaxy exists), otherwise clear
`animationId` and stop. -/
def animateCall (s : LoopState) : LoopState :=
  if s.destroyed then s
  else if s.visible then
    { s with
        animId := true
        pending := s.pending + 1
        renders := if s.galaxy then s.renders + 1 else s.renders }
  else { s with animId := false }

/-- `cancelAnimationFrame(this.animationId); this.animationId = null` guarded
by `animationId !== null`, as written in `handleVisibility` and `destroy`. -/
def cancelFrame (s : LoopState) : LoopState :=
  if s.animId then { s with pending := s.pending - 1, animId := false } else s

/-- The `visibilitychange` handler: update `isPageVisible`; on becoming
visible call `animate` only when no loop is running and not destroyed; on
becoming hidden cancel the outstanding frame request. -/
def handleVisibilityChange (s : LoopState) (hidden : Bool) : LoopState :=
  let s1 := { s with visible := !hidden }
  if !hidden then
    if s1.animId = false ∧ s1.destroyed = false then animateCall s1 else s1
  else cancelFrame s1

/-- The host scheduler fires an outstanding frame: one request is consumed
and the `animate` callback runs. A state with no outstanding request fires
nothing. -/
def fireFrame (s : LoopState) : LoopState :=
  if s.pending = 0 then s else animateCall { s with pending := s.pending - 1 }

/-- The frame-scheduling part of `destroy`: set `isDestroyed`, then cancel
the outstanding frame request. -/
def destroyCancel (s : LoopState) : LoopState :=
  cancelFrame { s with destroyed := true }

/-- Scheduling invariant tying the code's `animationId` field to the host's
outstanding-request count: `animationId` is set iff exactly one request is
outstanding, and a destroyed instance holds no `animationId`. -/
def LoopInv (s : LoopState) : Prop :=
  s.pending = (if s.animId then 1 else 0) ∧ (s.destroyed = true → s.animId = false)

instance (s : LoopState) : Decidable (LoopInv s) := by
  unfold LoopInv
  infer_instance

/-! ### Resize coordinator (`handleResize`) -/

/-- State of the debounced size-update coordinator: the `isDestroyed` flag,
the `updateSizePending` single-flight flag, and the cached `lastSize` and
`lastDevice`. -/
structure RState where
  destroyed : Bool
  updateSizePending : Bool
  lastSize : Option (ℤ × ℤ)
  lastDevice : Option DeviceTier
deriving DecidableEq, Repr

/-- Externally visible effects of one coordinator step: camera
position/look-at/FOV/aspect/projection mutation, `renderer.setSize`,
a forced `renderer.render`, `renderer.setPixelRatio`, and whether any new
deferred work (an animation-frame request or a timer) was scheduled. -/
structure Effects where
  cameraMutated : Bool
  rendererResized : Bool
  renderedFrame : Bool
  pixelRatioSet : Bool
  scheduledWork : Bool
deriving DecidableEq, Repr

/-- The empty effect record. -/
def noEffects : Effects :=
  { cameraMutated := false
    rendererResized := false
    renderedFrame := false
    pixelRatioSet := false
    scheduledWork := false }

/-- The synchronous prefix of `updateSize` (reached from the debounced
resize, orientation-change and resize-observer handlers): return immediately
when destroyed or when an update is already pending, otherwise set
`updateSizePending` and schedule the `requestAnimationFrame` callback. -/
def updateSizeTrigger (s : RState) : RState × Effects :=
  if s.destroyed || s.updateSizePending then (s, noEffects)
  else ({ s with updateSizePending := true }, { noEffects with scheduledWork := true })

/-- The `requestAnimationFrame` callback inside `updateSize`, applied to the
resolved canvas size: bail out (clearing the pending flag) when destroyed,
when a dimension is zero, or when the size is unchanged; otherwise mutate
the camera, resize the renderer, force a render when the galaxy exists,
store the new size/device, and schedule the pixel-ratio timer. -/
def updateSizeCallback (s : RState) (size : ℤ × ℤ) (device : DeviceTier)
    (galaxyPresent : Bool) : RState × Effects :=
  if s.destroyed then ({ s with updateSizePending := false }, noEffects)
  else if size.1 = 0 ∨ size.2 = 0 then ({ s with updateSizePending := false }, noEffects)
  else if s.lastSize = some size then ({ s with updateSizePending := false }, noEffects)
  else
    ({ s with
        lastSize := some size
        lastDevice := some device
        updateSizePending := false },
     { cameraMutated := true
       rendererResized := true
       renderedFrame := galaxyPresent
       pixelRatioSet := false
       scheduledWork := true })

/-- The debounced (150 ms) pixel-ratio timer armed at the end of a settled
`updateSize`: bail out when destroyed, otherwise call
`renderer.setPixelRatio`. -/
def pixelRatioTimer (s : RState) : RState × Effects :=
  if s.destroyed then (s, noEffects)
  else (s, { noEffects with pixelRatioSet := true })

/-- One full settled size-update cycle: the synchronous trigger followed by
its `requestAnimationFrame` callback. -/
def settleOnce (s : RState) (size : ℤ × ℤ) (device : DeviceTier)
    (galaxyPresent : Bool) : RState × Effects :=
  updateSizeCallback (updateSizeTrigger s).1 size device galaxyPresent

/-- `n` back-to-back calls of `updateSize` before the scheduled callback has
run (e.g. window resize, orientation change and the resize observer firing
within one debounce window); returns the final state and how many update
callbacks were scheduled. -/
def triggerMany : RState → ℕ → RState × ℕ
  | s, 0 => (s, 0)
  | s, n + 1 =>
    let t := updateSizeTrigger s
    let rest := triggerMany t.1 n
    (rest.1, (if t.2.scheduledWork then 1 else 0) + rest.2)

/-! ### Teardown disposal (`destroy`) -/

/-- Teardown-relevant state: whether `galaxyGroup` is non-null, the list of
per-particle glyph-texture references (`true` = the "1" texture, `false` =
the "0" texture), cumulative `dispose()` call counts on each of the two
shared textures and on materials, and the destroyed flag. -/
structure TeardownState where
  galaxyGroup : Bool
  particleMaps : List Bool
  tex1Disposals : ℕ
  tex0Disposals : ℕ
  materialDisposals : ℕ
  destroyed : Bool
deriving DecidableEq, Repr

/-- The disposal loop of `destroy`: for each particle in order,
`material.map.dispose()` is one dispose call on whichever shared texture the
particle references. Returns the pair (calls on the "1" texture, calls on
the "0" texture). -/
def disposeCounts : List Bool → ℕ × ℕ
  | [] => (0, 0)
  | usesTex1 :: rest =>
    let c := disposeCounts rest
    if usesTex1 then (c.1 + 1, c.2) else (c.1, c.2 + 1)

/-- The disposal part of `destroy`: set `isDestroyed`; if `galaxyGroup` is
non-null, run the per-particle dispose loop (one `map.dispose()` and one
`material.dispose()` per particle), then null the group and clear the
particle list; otherwise dispose nothing. -/
def destroyTeardown (s : TeardownState) : TeardownState :=
  let s1 := { s with destroyed := true }
  if s1.galaxyGroup then
    let c := disposeCounts s1.particleMaps
    { s1 with
        tex1Disposals := s1.tex1Disposals + c.1
        tex0Disposals := s1.tex0Disposals + c.2
        materialDisposals := s1.materialDisposals + s1.particleMaps.length
        galaxyGroup := false
        particleMaps := [] }
  else s1

/-! ### Canvas size resolution (`getCanvasSize`) -/

/-- The last-resort branch of `getCanvasSize`:
`Math.round(window.innerWidth || 1920)` × `Math.round(window.innerHeight || 1080)`;
the inner sizes are integers, so rounding is the identity and `||`
substitutes the default exactly when the value is 0. -/
def windowFallback (win : ℤ × ℤ) : ℤ × ℤ :=
  ((if win.1 = 0 then 1920 else win.1), (if win.2 = 0 then 1080 else win.2))

/-- Third branch of `getCanvasSize`: canvas `clientWidth`/`clientHeight`
(integers), used when both are positive. -/
def sizeFromClient (client win : ℤ × ℤ) : ℤ × ℤ :=
  if 0 < client.1 ∧ 0 < client.2 then client else windowFallback win

/-- Second branch of `getCanvasSize`: the canvas bounding rectangle
(sub-pixel, rounded), used when both dimensions are positive. -/
def sizeFromRect (rect : ℚ × ℚ) (client win : ℤ × ℤ) : ℤ × ℤ :=
  if 0 < rect.1 ∧ 0 < rect.2 then (round rect.1, round rect.2)
  else sizeFromClient client win

/-- `getCanvasSize`: parent bounding box, then canvas bounding box, then
canvas client box, then window inner size with 1920×1080 defaults. -/
def getCanvasSize (parent : Option (ℚ × ℚ)) (rect : ℚ × ℚ)
    (client win : ℤ × ℤ) : ℤ × ℤ :=
  match parent with
  | some pr =>
    if 0 < pr.1 ∧ 0 < pr.2 then (round pr.1, round pr.2)
    else sizeFromRect rect client win
  | none => sizeFromRect rect client win

/-! ## Helper lemmas -/

theorem armCount_succ (N a : ℕ) :
    armCount (N + 1) a = armCount N a + (if N % BRANCHES = a then 1 else 0) := by
  unfold armCount
  rw [Finset.range_succ, Finset.filter_insert]
  split_ifs with h
  · rw [Finset.card_insert_of_not_mem (by simp)]
  · simp

theorem armCount_formula (N a : ℕ) (ha : a < 4) :
    armCount N a = N / 4 + (if a < N % 4 then 1 else 0) := by
  induction N with
  | zero => simp [armCount]
  | succ n ih =>
    rw [armCount_succ, ih]
    simp only [BRANCHES]
    split_ifs <;> omega

theorem disposeCounts_eq (maps : List Bool) :
    disposeCounts maps =
      ((maps.filter (fun b => b)).length, (maps.filter (fun b => !b)).length) := by
  induction maps with
  | nil => rfl
  | cons b rest ih =>
    cases b <;> simp [disposeCounts, ih, List.filter]

theorem triggerMany_pending (s : RState) (h : s.updateSizePending = true) :
    ∀ n, triggerMany s n = (s, 0) := by
  intro n
  induction n with
  | zero => rfl
  | succ m ih =>
    have ht : updateSizeTrigger s = (s, noEffects) := by
      unfold updateSizeTrigger
      simp [h]
    simp [triggerMany, ht, ih, noEffects]

/-! ## Claim theorems -/

/-- Claim C5: for every generated particle, `orbitalRadius` equals
`u ^ p * RADIUS` for the uniform sample `u ∈ [0,1)` drawn for it, where the
density power `p` is 3 for the mobile tier and 2.5 otherwise and
`RADIUS = 20`; consequently `orbitalRadius` lies in `[0, RADIUS)`. -/
theorem orbitalRadius_density_range (d : DeviceTier) (u : ℝ)
    (h0 : 0 ≤ u) (h1 : u < 1) :
    finalRadius d u = u ^ densityPower d * RADIUS
    ∧ densityPower DeviceTier.mobile = 3
    ∧ (d ≠ DeviceTier.mobile → densityPower d = 2.5)
    ∧ RADIUS = 20
    ∧ 0 ≤ finalRadius d u
    ∧ finalRadius d u < RADIUS := by
  have hp : (0 : ℝ) < densityPower d := by
    unfold densityPower
    split_ifs <;> norm_num
  have hlt : u ^ densityPower d < 1 := Real.rpow_lt_one h0 h1 hp
  have hge : 0 ≤ u ^ densityPower d := Real.rpow_nonneg h0 _
  have hR : (0 : ℝ) < RADIUS := by norm_num [RADIUS]
  refine ⟨rfl, by norm_num [densityPower], ?_, rfl, ?_, ?_⟩
  · intro hd
    unfold densityPower
    simp [hd]
  · exact mul_nonneg hge (le_of_lt hR)
  · exact mul_lt_of_lt_one_left hR hlt

/-- Witness for C5 at `d = desktop`, `u = 1/2`. -/
theorem orbitalRadius_density_range_witness :
    0 ≤ finalRadius DeviceTier.desktop (1 / 2)
    ∧ finalRadius DeviceTier.desktop (1 / 2) < RADIUS :=
  ⟨(orbitalRadius_density_range DeviceTier.desktop (1 / 2) (by norm_num)
      (by norm_num)).2.2.2.2.1,
   (orbitalRadius_density_range DeviceTier.desktop (1 / 2) (by norm_num)
      (by norm_num)).2.2.2.2.2⟩

/-- Claim C6: particle `i` is assigned
`branchAngle = ((i mod 4) / 4) * 2π`, and branch assignment is exactly
balanced: each of the 4 spiral arms `a` receives `⌈N/4⌉` (written here as
`(N + 3) / 4` in ℕ) or `⌊N/4⌋` (written `N / 4`) of the `N` particle
indices, for every `N`. -/
theorem branch_assignment_balanced (N i a : ℕ) (ha : a < 4) :
    branchAngle i = ((i % 4 : ℕ) : ℝ) / 4 * (2 * Real.pi)
    ∧ armCount N a = N / 4 + (if a < N % 4 then 1 else 0)
    ∧ (armCount N a = N / 4 ∨ armCount N a = (N + 3) / 4) := by
  have hf := armCount_formula N a ha
  refine ⟨?_, hf, ?_⟩
  · unfold branchAngle
    simp only [BRANCHES]
    push_cast
    ring
  · rw [hf]
    have hm : N % 4 < 4 := Nat.mod_lt _ (by norm_num)
    split_ifs with h
    · right; omega
    · left; omega

/-- Witness for C6 at `N = 10`, `i = 7`, `a = 2`. -/
theorem branch_assignment_balanced_witness :
    armCount 10 2 = 10 / 4 + (if 2 < 10 % 4 then 1 else 0) :=
  (branch_assignment_balanced 10 7 2 (by decide)).2.1

/-- Claim C7: on every animation frame, every particle's sprite position is
set to `x = cos(initialAngle + orbitalSpeed * time) * radius + randomOffset.x`,
`z = sin(initialAngle + orbitalSpeed * time) * radius + randomOffset.z`, and
`y = randomOffset.y` (re-pinned, never drifting), where
`orbitalSpeed = 0.5 / √(radius + 1)`; a particle with radius 5 has
`orbitalSpeed = 0.5 / √6`, and after a time advance `dt` its angle is
`initialAngle + (0.5 / √6) * dt`. -/
theorem animate_orbital_position (t : ℝ) (p : ParticleData) (s : AnimState) :
    (animateParticle t p).sprite.position.x
        = Real.cos (p.initialAngle + p.orbitalSpeed * t) * p.radius + p.randomOffset.x
    ∧ (animateParticle t p).sprite.position.z
        = Real.sin (p.initialAngle + p.orbitalSpeed * t) * p.radius + p.randomOffset.z
    ∧ (animateParticle t p).sprite.position.y = p.randomOffset.y
    ∧ (∀ r : ℝ, orbitalSpeedOf r = 0.5 / Real.sqrt (r + 1))
    ∧ orbitalSpeedOf 5 = 0.5 / Real.sqrt 6
    ∧ (∀ dt : ℝ, p.initialAngle + orbitalSpeedOf 5 * dt
        = p.initialAngle + 0.5 / Real.sqrt 6 * dt)
    ∧ (animateFrame s).particles = s.particles.map (animateParticle (s.time + 0.005)) := by
  have h6 : orbitalSpeedOf 5 = 0.5 / Real.sqrt 6 := by
    unfold orbitalSpeedOf
    norm_num
  exact ⟨rfl, rfl, rfl, fun r => rfl, h6, fun dt => by rw [h6], rfl⟩

/-- Claim C9: the per-frame update mutates particle position only — the
static fields `initialAngle`, `radius`, `orbitalSpeed`, `branchAngle`,
`randomOffset` are unchanged, as are the sprite's scale and its material's
texture, tint color and opacity. -/
theorem animate_position_only (t : ℝ) (p : ParticleData) :
    (animateParticle t p).initialAngle = p.initialAngle
    ∧ (animateParticle t p).radius = p.radius
    ∧ (animateParticle t p).orbitalSpeed = p.orbitalSpeed
    ∧ (animateParticle t p).branchAngle = p.branchAngle
    ∧ (animateParticle t p).randomOffset = p.randomOffset
    ∧ (animateParticle t p).sprite.scale = p.sprite.scale
    ∧ (animateParticle t p).sprite.materialMap = p.sprite.materialMap
    ∧ (animateParticle t p).sprite.materialColor = p.sprite.materialColor
    ∧ (animateParticle t p).sprite.materialOpacity = p.sprite.materialOpacity :=
  ⟨rfl, rfl, rfl, rfl, rfl, rfl, rfl, rfl, rfl⟩

/-- Claim C8: hiding the page cancels the in-flight animation-frame request
immediately (outstanding requests drop to 0) and no further render occurs
while hidden; becoming visible resumes the loop only when it is not already
running and the instance is not destroyed; the scheduling invariant is
preserved by every event, so at most one animation loop is ever active. -/
theorem visibility_single_loop (s : LoopState) (h : LoopInv s) :
    LoopInv (fireFrame s)
    ∧ (∀ b, LoopInv (handleVisibilityChange s b))
    ∧ LoopInv (destroyCancel s)
    ∧ (handleVisibilityChange s true).pending = 0
    ∧ (handleVisibilityChange s true).renders = s.renders
    ∧ (s.visible = false → (fireFrame s).renders = s.renders
        ∧ (fireFrame s).pending = 0)
    ∧ (s.animId = true ∨ s.destroyed = true →
        (handleVisibilityChange s false).pending = s.pending
        ∧ (handleVisibilityChange s false).renders = s.renders)
    ∧ (s.animId = false → s.destroyed = false →
        (handleVisibilityChange s false).pending = 1)
    ∧ (fireFrame s).pending ≤ 1 := by
  obtain ⟨hp, hd⟩ := h
  obtain ⟨d, v, g, a, p, r⟩ := s
  simp only at hp hd
  cases d <;> cases v <;> cases g <;> cases a <;>
    simp_all [LoopInv, fireFrame, handleVisibilityChange, animateCall,
      cancelFrame, destroyCancel]

/-- Witness for C8 at a running, visible, live state. -/
theorem visibility_single_loop_witness :
    (handleVisibilityChange ⟨false, true, true, true, 1, 0⟩ true).pending = 0 :=
  (visibility_single_loop ⟨false, true, true, true, 1, 0⟩ (by decide)).2.2.2.1

/-- Claim C2: once `isDestroyed` is set, every piece of deferred work — the
animation-frame callback, the size-update callback scheduled via
`requestAnimationFrame`, the debounced resize/orientation/observer handlers
(which all funnel into `updateSize`), and the pixel-ratio timer — checks the
flag, issues no render and schedules no new work. -/
theorem no_work_after_destroy (s : RState) (ls : LoopState)
    (hs : s.destroyed = true) (hl : ls.destroyed = true) :
    updateSizeTrigger s = (s, noEffects)
    ∧ (∀ size device g, updateSizeCallback s size device g
        = ({ s with updateSizePending := false }, noEffects))
    ∧ pixelRatioTimer s = (s, noEffects)
    ∧ animateCall ls = ls := by
  refine ⟨?_, ?_, ?_, ?_⟩
  · unfold updateSizeTrigger
    simp [hs]
  · intro size device g
    unfold updateSizeCallback
    simp [hs]
  · unfold pixelRatioTimer
    simp [hs]
  · unfold animateCall
    simp [hl]

/-- Witness for C2 at a concrete destroyed state. -/
theorem no_work_after_destroy_witness :
    updateSizeTrigger ⟨true, false, none, none⟩
      = (⟨true, false, none, none⟩, noEffects) :=
  (no_work_after_destroy ⟨true, false, none, none⟩
    ⟨true, true, true, false, 0, 0⟩ rfl rfl).1

/-- Claim C3: the size update is single-flight — while `updateSizePending`
is set, any further `updateSize` call (from window resize, orientation
change or the resize observer) schedules nothing and leaves the state
unchanged, so `n ≥ 1` triggers inside one debounce window schedule exactly
one size-update callback. -/
theorem updateSize_single_flight (s : RState) (n : ℕ)
    (hd : s.destroyed = false) (hp : s.updateSizePending = false)
    (hn : 1 ≤ n) :
    (triggerMany s n).2 = 1
    ∧ (∀ s' : RState, s'.updateSizePending = true →
        updateSizeTrigger s' = (s', noEffects)) := by
  have hblock : ∀ s' : RState, s'.updateSizePending = true →
      updateSizeTrigger s' = (s', noEffects) := by
    intro s' h
    unfold updateSizeTrigger
    simp [h]
  refine ⟨?_, hblock⟩
  obtain ⟨m, rfl⟩ : ∃ m, n = m + 1 := ⟨n - 1, by omega⟩
  have ht : updateSizeTrigger s
      = ({ s with updateSizePending := true }, { noEffects with scheduledWork := true }) := by
    unfold updateSizeTrigger
    simp [hd, hp]
  have hrest := triggerMany_pending { s with updateSizePending := true } rfl m
  simp [triggerMany, ht, hrest, noEffects]

/-- Witness for C3: three simultaneous triggers from idle schedule exactly
one update. -/
theorem updateSize_single_flight_witness :
    (triggerMany ⟨false, false, none, none⟩ 3).2 = 1 :=
  (updateSize_single_flight ⟨false, false, none, none⟩ 3 rfl rfl
    (by decide)).1

/-- Claim C4: running the size-update path twice in succession with an
unchanged resolved canvas size is idempotent — the second run performs no
camera mutation, no renderer resize and no forced render, and it returns the
coordinator to idle with the state unchanged. -/
theorem updateSize_idempotent (s : RState) (size : ℤ × ℤ)
    (device : DeviceTier) (g : Bool) (hd : s.destroyed = false)
    (h1 : size.1 ≠ 0) (h2 : size.2 ≠ 0) :
    (settleOnce (settleOnce s size device g).1 size device g).2 = noEffects
    ∧ (settleOnce (settleOnce s size device g).1 size device g).1
        = (settleOnce s size device g).1
    ∧ (settleOnce s size device g).1.updateSizePending = false := by
  obtain ⟨sd, sp, sl, sv⟩ := s
  simp only at hd
  subst hd
  have hs1 : (settleOnce ⟨false, sp, sl, sv⟩ size device g).1.destroyed = false
      ∧ (settleOnce ⟨false, sp, sl, sv⟩ size device g).1.updateSizePending = false
      ∧ (settleOnce ⟨false, sp, sl, sv⟩ size device g).1.lastSize = some size := by
    unfold settleOnce updateSizeTrigger updateSizeCallback
    rcases sp <;> rcases sl with _ | l <;>
      simp_all [noEffects] <;> split_ifs <;> simp_all
  obtain ⟨ha, hb, hc⟩ := hs1
  generalize (settleOnce ⟨false, sp, sl, sv⟩ size device g).1 = t at ha hb hc ⊢
  obtain ⟨td, tp, tl, tv⟩ := t
  simp only at ha hb hc
  subst ha; subst hb; subst hc
  unfold settleOnce updateSizeTrigger updateSizeCallback
  simp [h1, h2]

/-- Witness for C4 resizing from fresh state to 800×600 twice. -/
theorem updateSize_idempotent_witness :
    (settleOnce (settleOnce ⟨false, false, none, none⟩ (800, 600)
        DeviceTier.desktop true).1 (800, 600) DeviceTier.desktop true).2
      = noEffects :=
  (updateSize_idempotent ⟨false, false, none, none⟩ (800, 600)
    DeviceTier.desktop true rfl (by decide) (by decide)).1

/-- Claim C1 counterexample: with two particles both referencing the shared
"1" glyph texture, teardown invokes that texture's dispose primitive twice,
not once — the per-particle `material.map.dispose()` loop in `destroy` does
not deduplicate release calls per unique texture. -/
theorem texture_dispose_not_once_cex :
    ¬ (destroyTeardown
        { galaxyGroup := true
          particleMaps := [true, true]
          tex1Disposals := 0
          tex0Disposals := 0
          materialDisposals := 0
          destroyed := false }).tex1Disposals = 1 := by
  decide

/-- Claim C1 amended: at teardown, each shared glyph texture's dispose
primitive is invoked once per particle referencing it (so a texture
referenced by `k` particles receives `k` dispose calls, not 1), and a second
`destroy()` call performs no further disposals because `galaxyGroup` has
been nulled. -/
theorem texture_dispose_per_particle (s : TeardownState)
    (h : s.galaxyGroup = true) :
    (destroyTeardown s).tex1Disposals
        = s.tex1Disposals + (s.particleMaps.filter (fun b => b)).length
    ∧ (destroyTeardown s).tex0Disposals
        = s.tex0Disposals + (s.particleMaps.filter (fun b => !b)).length
    ∧ (destroyTeardown s).materialDisposals
        = s.materialDisposals + s.particleMaps.length
    ∧ destroyTeardown (destroyTeardown s) = destroyTeardown s
    ∧ (destroyTeardown s).destroyed = true := by
  obtain ⟨gg, maps, t1, t0, md, de⟩ := s
  simp only at h
  subst h
  simp [destroyTeardown, disposeCounts_eq]

/-- Witness for C1's amended theorem: one particle on each texture gives one
dispose call per texture here, and a repeated destroy adds none. -/
theorem texture_dispose_per_particle_witness :
    (destroyTeardown
        { galaxyGroup := true
          particleMaps := [true, false]
          tex1Disposals := 0
          tex0Disposals := 0
          materialDisposals := 0
          destroyed := false }).tex1Disposals
      = 0 + ([true, false].filter (fun b => b)).length :=
  (texture_dispose_per_particle
    { galaxyGroup := true
      particleMaps := [true, false]
      tex1Disposals := 0
      tex0Disposals := 0
      materialDisposals := 0
      destroyed := false } rfl).1

/-- Claim C10: `getCanvasSize` always falls back to the rounded window inner
size with 1920×1080 substituted for a zero window dimension, so the final
fallback never yields a zero dimension; a zero width or height in the result
can only come from the parent or canvas bounding box (whose sub-pixel size
may round to 0), never from the client box or the last-resort fallback. -/
theorem getCanvasSize_fallback (parent : Option (ℚ × ℚ)) (rect : ℚ × ℚ)
    (client win : ℤ × ℤ) (hw1 : 0 ≤ win.1) (hw2 : 0 ≤ win.2) :
    (0 < (windowFallback win).1 ∧ 0 < (windowFallback win).2)
    ∧ ((∀ pr, parent = some pr → ¬(0 < pr.1 ∧ 0 < pr.2)) →
        ¬(0 < rect.1 ∧ 0 < rect.2) → ¬(0 < client.1 ∧ 0 < client.2) →
        getCanvasSize parent rect client win = windowFallback win)
    ∧ ((getCanvasSize parent rect client win).1 ≤ 0
        ∨ (getCanvasSize parent rect client win).2 ≤ 0 →
        (∃ pr, parent = some pr ∧ 0 < pr.1 ∧ 0 < pr.2
            ∧ getCanvasSize parent rect client win = (round pr.1, round pr.2))
        ∨ (0 < rect.1 ∧ 0 < rect.2
            ∧ getCanvasSize parent rect client win = (round rect.1, round rect.2))) := by
  have hwf : 0 < (windowFallback win).1 ∧ 0 < (windowFallback win).2 := by
    unfold windowFallback
    constructor <;> split_ifs <;> omega
  refine ⟨hwf, ?_, ?_⟩
  · intro hpar hrect hclient
    cases parent with
    | none =>
      unfold getCanvasSize sizeFromRect sizeFromClient
      simp [hrect, hclient]
    | some pr =>
      have := hpar pr rfl
      unfold getCanvasSize sizeFromRect sizeFromClient
      simp [this, hrect, hclient]
  · intro hzero
    by_cases hpar : ∃ pr, parent = some pr ∧ 0 < pr.1 ∧ 0 < pr.2
    · obtain ⟨pr, hpr, hp1, hp2⟩ := hpar
      left
      refine ⟨pr, hpr, hp1, hp2, ?_⟩
      subst hpr
      unfold getCanvasSize
      simp [hp1, hp2]
    · have hres : getCanvasSize parent rect client win
          = sizeFromRect rect client win := by
        cases parent with
        | none => rfl
        | some pr =>
          unfold getCanvasSize
          have : ¬(0 < pr.1 ∧ 0 < pr.2) := fun hc => hpar ⟨pr, rfl, hc⟩
          simp [this]
      rw [hres] at hzero ⊢
      by_cases hrect : 0 < rect.1 ∧ 0 < rect.2
      · right
        refine ⟨hrect.1, hrect.2, ?_⟩
        unfold sizeFromRect
        simp [hrect]
      · exfalso
        unfold sizeFromRect sizeFromClient at hzero
        simp only [hrect, if_false] at hzero
        by_cases hclient : 0 < client.1 ∧ 0 < client.2
        · simp [hclient] at hzero
          omega
        · simp [hclient] at hzero
          rcases hzero with hz | hz
          · exact absurd hz (by omega)
          · exact absurd hz (by omega)

/-- Witness for C10 with every element-based source non-positive and a
zero-reporting window. -/
theorem getCanvasSize_fallback_witness :
    getCanvasSize (some (0, 5)) (0, 0) (0, 0) (0, 0)
      = windowFallback (0, 0) :=
  (getCanvasSize_fallback (some (0, 5)) (0, 0) (0, 0) (0, 0)
      (by decide) (by decide)).2.1
    (by intro pr hpr; cases hpr; decide) (by decide) (by decide)

end Galaxy
